import Mathlib

/-!
Shallow embedding of the rusty-s3fs filesystem (src/s3fs.rs and
src/s3util.rs).  Machine integers of the source (u16, u32, u64) are
modelled as Nat, with an explicit `% 2 ^ w` wherever the source performs a
narrowing cast, and with Nat subtraction standing for `saturating_sub`.
Fallible paths are modelled with Except; a Rust `unwrap` panic is the
distinguished error `FsErr.fatal`.  External collaborators (the object
store client, the clock) enter as explicit parameters of the embedded
functions.
-/

namespace S3FS

/-! ### Constants (libc values for Linux, and the source constants) -/

def F_OK : Nat := 0
def X_OK : Nat := 1
def W_OK : Nat := 2
def R_OK : Nat := 4

def O_ACCMODE : Nat := 3
def O_RDONLY : Nat := 0
def O_WRONLY : Nat := 1
def O_RDWR : Nat := 2

def S_ISUID : Nat := 2048  -- 0o4000
def S_ISGID : Nat := 1024  -- 0o2000
def S_ISVTX : Nat := 512   -- 0o1000
def S_IXGRP : Nat := 8     -- 0o010
def S_IFMT : Nat := 61440  -- 0o170000
def S_IFREG : Nat := 32768 -- 0o100000
def S_IFDIR : Nat := 16384 -- 0o040000

def ENOENT : Nat := 2
def EBADF : Nat := 9
def EACCES : Nat := 13
def EEXIST : Nat := 17
def EINVAL : Nat := 22

def FUSE_ROOT_ID : Nat := 1

-- src/s3fs.rs lines 32-33
def FILE_HANDLE_READ_BIT : Nat := 2 ^ 63
def FILE_HANDLE_WRITE_BIT : Nat := 2 ^ 62

/-! ### Data model (src/s3fs.rs lines 37-41 and 75-90) -/

inductive FileKind where
  | File
  | Directory
deriving DecidableEq

structure InodeAttributes where
  inode : Nat
  open_file_handles : Nat
  size : Nat
  last_accessed : Int × Nat
  last_modified : Int × Nat
  last_metadata_changed : Int × Nat
  kind : FileKind
  mode : Nat       -- u16
  hardlinks : Nat  -- u32
  uid : Nat
  gid : Nat
  md5 : String
deriving DecidableEq

/-! ### check_access (src/s3fs.rs lines 871-904)

The source works on an i32 access mask that stays non-negative throughout
(it only shrinks by subtracting sub-masks), so Nat arithmetic is exact. -/

def check_access (file_uid file_gid file_mode uid gid access_mask : Nat) : Bool :=
  if access_mask == F_OK then true
  else if uid == 0 then
    let am := access_mask &&& X_OK
    let am := am - (am &&& (file_mode >>> 6))
    let am := am - (am &&& (file_mode >>> 3))
    let am := am - (am &&& file_mode)
    am == 0
  else if uid == file_uid then
    (access_mask - (access_mask &&& (file_mode >>> 6))) == 0
  else if gid == file_gid then
    (access_mask - (access_mask &&& (file_mode >>> 3))) == 0
  else
    (access_mask - (access_mask &&& file_mode)) == 0

/-- The root branch of check_access: `access_mask &= X_OK` followed by the
three subtractions, definitionally equal to the corresponding lines of the
source. -/
def root_chain (file_mode access_mask : Nat) : Bool :=
  let am := access_mask &&& X_OK
  let am := am - (am &&& (file_mode >>> 6))
  let am := am - (am &&& (file_mode >>> 3))
  let am := am - (am &&& file_mode)
  am == 0

/-- Same computation as `check_access`, with the three caller identity
tests (root, owner match, group match) abstracted into Booleans. -/
def access_core (root_user owner_match group_match : Bool)
    (file_mode access_mask : Nat) : Bool :=
  if access_mask == F_OK then true
  else if root_user then root_chain file_mode access_mask
  else if owner_match then
    (access_mask - (access_mask &&& (file_mode >>> 6))) == 0
  else if group_match then
    (access_mask - (access_mask &&& (file_mode >>> 3))) == 0
  else
    (access_mask - (access_mask &&& file_mode)) == 0

/-- The POSIX permission rule as stated by the specification: F_OK always
allows; root gets read and write unconditionally and execute exactly when
some x bit is set; otherwise the owner, group or others triplet is chosen
and every requested bit must be present in it. -/
def posix_core (root_user owner_match group_match : Bool)
    (file_mode mask : Nat) : Bool :=
  if mask == F_OK then true
  else if root_user then
    if mask &&& X_OK != 0 then file_mode &&& 73 != 0 else true
  else
    let triplet :=
      if owner_match then (file_mode >>> 6) &&& 7
      else if group_match then (file_mode >>> 3) &&& 7
      else file_mode &&& 7
    mask &&& triplet == mask

def posix_allow (file_uid file_gid file_mode uid gid mask : Nat) : Bool :=
  posix_core (uid == 0) (uid == file_uid) (gid == file_gid) file_mode mask

/-! ### clear_suid_sgid (src/s3fs.rs lines 863-869) -/

/-- Mode transformation of `clear_suid_sgid`: first `mode &= !S_ISUID as
u16` (mask 0xF7FF), then, only when the group execute bit is set, `mode &=
!S_ISGID as u16` (mask 0xFBFF). -/
def clear_suid_sgid_mode (m : Nat) : Nat :=
  let m1 := m &&& 0xF7FF
  if m1 &&& S_IXGRP != 0 then m1 &&& 0xFBFF else m1

def clear_suid_sgid (attr : InodeAttributes) : InodeAttributes :=
  { attr with mode := clear_suid_sgid_mode attr.mode }

/-! ### File handle permission bits (src/s3fs.rs lines 287-293) -/

def check_file_handle_read (file_handle : Nat) : Bool :=
  (file_handle &&& FILE_HANDLE_READ_BIT) != 0

def check_file_handle_write (file_handle : Nat) : Bool :=
  (file_handle &&& FILE_HANDLE_WRITE_BIT) != 0

/-! ### read length clamping (src/s3fs.rs line 576)

`min(size, file_size.saturating_sub(offset as u64) as u32)`: the saturating
subtraction is Nat subtraction, and the `as u32` cast is a mod 2^32
truncation. -/

def read_size (size file_size offset : Nat) : Nat :=
  min size ((file_size - offset) % 4294967296)

/-! ### The parallel range downloader (src/s3util.rs lines 111-162)

Each spawned block task ends in `Ok::<(), anyhow::Error>(())` or an error;
awaiting its JoinHandle yields either that task result or a join error
(panic or cancellation).  The source loop matches `Ok(_)` against the
*outer* layer only. -/

deriving instance DecidableEq for Except

inductive TaskJoin where
  | joined (r : Except String Unit)
  | panicked (e : String)
deriving DecidableEq

def dl_block_size : Nat := 64 * 1024 * 1024

/-- Number of block tasks: `(size as f64 / block_size as f64).ceil() as
usize`.  The f64 computation is exact for every size below 2^53; the model
uses the exact ceiling division. -/
def dl_num_blocks (size : Nat) : Nat := (size + dl_block_size - 1) / dl_block_size

/-- The await loop of get_data: `Ok(_) => total += block_size` (this
matches a joined task even when the task itself returned an error) and
`Err(e) => return Err(e)`. -/
def get_data_collect (total : Nat) : List TaskJoin → Except String Nat
  | [] => .ok total
  | .joined _ :: rest => get_data_collect (total + dl_block_size) rest
  | .panicked e :: _ => .error e

/-- get_data given the object size and the join outcome of every block
task (block i covers `[i * block_size, min ((i+1) * block_size, size))`). -/
def get_data (size : Nat) (outcome : Nat → TaskJoin) : Except String Nat :=
  get_data_collect 0 ((List.range (dl_num_blocks size)).map outcome)

/-! ### The persistent store under the data directory

The metadata store keeps one file per inode under `inodes/` and one file
per inode under `contents/`; a directory content file holds a serialized
DirectoryDescriptor (a BTreeMap from byte names to (inode, kind)).  The
store is modelled as finite maps in the form of association lists with
unique keys; names are byte strings (List Nat). -/

/-- A Rust panic (a failed `unwrap` or `unimplemented!`) is `fatal`;
errno replies carry the errno value. -/
inductive FsErr where
  | errno (code : Nat)
  | fatal
deriving DecidableEq

def alist_lookup {κ ν : Type} [DecidableEq κ] (k : κ) : List (κ × ν) → Option ν
  | [] => none
  | (k0, v0) :: rest => if k0 = k then some v0 else alist_lookup k rest

/-- Full rewrite of the file for key k (create or truncate plus write). -/
def alist_upsert {κ ν : Type} [DecidableEq κ] (k : κ) (v : ν) :
    List (κ × ν) → List (κ × ν)
  | [] => [(k, v)]
  | (k0, v0) :: rest =>
      if k0 = k then (k, v) :: rest else (k0, v0) :: alist_upsert k v rest

/-- fs::remove_file / BTreeMap::remove for key k. -/
def alist_remove {κ ν : Type} [DecidableEq κ] (k : κ) :
    List (κ × ν) → List (κ × ν)
  | [] => []
  | (k0, v0) :: rest =>
      if k0 = k then alist_remove k rest else (k0, v0) :: alist_remove k rest

/-- Contents of a `contents/<n>` file: raw bytes for a regular file, a
serialized DirectoryDescriptor for a directory. -/
inductive Content where
  | file (bytes : List Nat)
  | dir (entries : List (List Nat × Nat × FileKind))
deriving DecidableEq

abbrev DirEntries := List (List Nat × Nat × FileKind)

/-- The on-disk state under the data directory: the `inodes/` directory,
the `contents/` directory, and the `superblock` file (absent on a fresh
data directory). -/
structure FsState where
  inodes : List (Nat × InodeAttributes)
  contents : List (Nat × Content)
  superblock : Option Nat
deriving DecidableEq

/-- get_inode (src/s3fs.rs lines 183-192): ENOENT when `inodes/<n>` is
absent.  Deserialization of a present file is assumed to succeed, as in
the source (`unwrap`). -/
def get_inode (st : FsState) (inode : Nat) : Except FsErr InodeAttributes :=
  match alist_lookup inode st.inodes with
  | some attrs => .ok attrs
  | none => .error (.errno ENOENT)

/-- write_inode (src/s3fs.rs lines 194-205): full-file rewrite. -/
def write_inode (st : FsState) (attrs : InodeAttributes) : FsState :=
  { st with inodes := alist_upsert attrs.inode attrs st.inodes }

/-- get_directory_content (src/s3fs.rs lines 207-216): ENOENT when
`contents/<n>` is absent; deserializing a regular-file byte content as a
DirectoryDescriptor fails the `unwrap` (fatal). -/
def get_directory_content (st : FsState) (inode : Nat) : Except FsErr DirEntries :=
  match alist_lookup inode st.contents with
  | some (.dir entries) => .ok entries
  | some (.file _) => .error .fatal
  | none => .error (.errno ENOENT)

/-- write_directory_content (src/s3fs.rs lines 218-229). -/
def write_directory_content (st : FsState) (inode : Nat) (entries : DirEntries) :
    FsState :=
  { st with contents := alist_upsert inode (.dir entries) st.contents }

/-- lookup_name (src/s3fs.rs lines 231-285; the object-store fallback is
commented out in the source, so a missing entry is ENOENT). -/
def lookup_name (st : FsState) (parent : Nat) (name : List Nat) :
    Except FsErr InodeAttributes :=
  match get_directory_content st parent with
  | .error e => .error e
  | .ok entries =>
      match alist_lookup name entries with
      | some (inode, _) => get_inode st inode
      | none => .error (.errno ENOENT)

/-- allocate_next_inode (src/s3fs.rs lines 164-181): read the superblock
(FUSE_ROOT_ID when the file is absent), persist counter+1, return
counter+1. -/
def allocate_next_inode (st : FsState) : Nat × FsState :=
  let current := match st.superblock with
    | some n => n
    | none => FUSE_ROOT_ID
  (current + 1, { st with superblock := some (current + 1) })

/-- gc_inode (src/s3fs.rs lines 385-400): when both counters are zero it
removes `inodes/<n>` and `contents/<n>` (each removal panics when the file
is already absent, since the source calls `fs::remove_file(..).unwrap()`)
and returns true; otherwise it returns false. -/
def gc_inode (attrs : InodeAttributes) (st : FsState) : Except FsErr (FsState × Bool) :=
  if attrs.hardlinks = 0 ∧ attrs.open_file_handles = 0 then
    match alist_lookup attrs.inode st.inodes with
    | none => .error .fatal
    | some _ =>
        let st1 := { st with inodes := alist_remove attrs.inode st.inodes }
        match alist_lookup attrs.inode st1.contents with
        | none => .error .fatal
        | some _ =>
            .ok ({ st1 with contents := alist_remove attrs.inode st1.contents }, true)
  else
    .ok (st, false)

/-- creation_mode (src/s3fs.rs lines 309-311):
`(mode & !(S_ISUID | S_ISGID) as u32) as u16`. -/
def creation_mode (mode : Nat) : Nat :=
  (mode &&& 0xFFFFF3FF) % 65536

/-- as_file_kind (src/s3fs.rs lines 907-917); other file types hit
`unimplemented!`, hence none. -/
def as_file_kind (mode : Nat) : Option FileKind :=
  let m := mode &&& S_IFMT
  if m = S_IFREG then some .File
  else if m = S_IFDIR then some .Directory
  else none

/-- creation_gid (src/s3fs.rs lines 919-925). -/
def creation_gid (parent : InodeAttributes) (gid : Nat) : Nat :=
  if parent.mode &&& S_ISGID ≠ 0 then parent.gid else gid

/-- The InodeAttributes literal built by create (src/s3fs.rs lines
680-694), after flag decoding, permission checks and mode masking.  The
clock reads are an external input `now`. -/
def create_attrs (inode : Nat) (kind : FileKind) (mode16 : Nat)
    (uid gid : Nat) (now : Int × Nat) : InodeAttributes :=
  { inode := inode
    open_file_handles := 1
    size := 0
    last_accessed := now
    last_modified := now
    last_metadata_changed := now
    kind := kind
    mode := mode16
    hardlinks := 1
    uid := uid
    gid := gid
    md5 := "" }

/-- create (src/s3fs.rs lines 625-716).  The returned file handle is an
in-memory counter irrelevant to the persistent state, so only the created
attributes and the new state are returned. -/
def create (st : FsState) (req_uid req_gid : Nat) (parent : Nat)
    (name : List Nat) (mode0 : Nat) (flags : Nat) (now : Int × Nat) :
    Except FsErr (InodeAttributes × FsState) :=
  if (lookup_name st parent name).isOk then .error (.errno EEXIST)
  else
    let am := flags &&& O_ACCMODE
    if am ≠ O_RDONLY ∧ am ≠ O_WRONLY ∧ am ≠ O_RDWR then .error (.errno EINVAL)
    else
      match get_inode st parent with
      | .error e => .error e
      | .ok parent_attrs0 =>
          if ¬check_access parent_attrs0.uid parent_attrs0.gid parent_attrs0.mode
              req_uid req_gid W_OK then .error (.errno EACCES)
          else
            let parent_attrs := { parent_attrs0 with
              last_modified := now, last_metadata_changed := now }
            let st1 := write_inode st parent_attrs
            let mode1 := if req_uid ≠ 0 then mode0 &&& 0xFFFFF3FF else mode0
            let alloc := allocate_next_inode st1
            let inode := alloc.1
            let st2 := alloc.2
            match as_file_kind mode1 with
            | none => .error .fatal
            | some kind =>
                let attrs := create_attrs inode kind (creation_mode mode1)
                  req_uid (creation_gid parent_attrs req_gid) now
                let st3 := write_inode st2 attrs
                let st4 := { st3 with
                  contents := alist_upsert inode (.file []) st3.contents }
                let st5 :=
                  if kind = FileKind.Directory then
                    write_directory_content st4 inode
                      [([46], (inode, FileKind.Directory)),
                       ([46, 46], (parent, FileKind.Directory))]
                  else st4
                match get_directory_content st5 parent with
                | .error _ => .error .fatal
                | .ok entries =>
                    .ok (attrs,
                      write_directory_content st5 parent
                        (alist_upsert name (inode, kind) entries))

/-- unlink (src/s3fs.rs lines 802-857). -/
def unlink (st : FsState) (req_uid req_gid : Nat) (parent : Nat)
    (name : List Nat) (now : Int × Nat) : Except FsErr FsState :=
  match lookup_name st parent name with
  | .error e => .error e
  | .ok attrs0 =>
      match get_inode st parent with
      | .error e => .error e
      | .ok parent_attrs0 =>
          if ¬check_access parent_attrs0.uid parent_attrs0.gid parent_attrs0.mode
              req_uid req_gid W_OK then .error (.errno EACCES)
          else if parent_attrs0.mode &&& S_ISVTX ≠ 0 ∧ req_uid ≠ 0 ∧
              req_uid ≠ parent_attrs0.uid ∧ req_uid ≠ attrs0.uid then
            .error (.errno EACCES)
          else
            let parent_attrs := { parent_attrs0 with
              last_metadata_changed := now, last_modified := now }
            let st1 := write_inode st parent_attrs
            let attrs := { attrs0 with
              hardlinks := attrs0.hardlinks - 1, last_metadata_changed := now }
            let st2 := write_inode st1 attrs
            match gc_inode attrs st2 with
            | .error e => .error e
            | .ok (st3, _) =>
                match get_directory_content st3 parent with
                | .error _ => .error .fatal
                | .ok entries =>
                    .ok (write_directory_content st3 parent
                      (alist_remove name entries))

/-! ### Inode materialization (init and the seeding walk)

src/s3fs.rs lines 313-381 (init_directories) and 415-434 (init).  The
attribute literals are extracted; the clock reads are the parameter
`now`. -/

/-- Root attributes written by init (src/s3fs.rs lines 417-430). -/
def root_attrs (now : Int × Nat) : InodeAttributes :=
  { inode := FUSE_ROOT_ID
    open_file_handles := 0
    size := 0
    last_accessed := now
    last_modified := now
    last_metadata_changed := now
    kind := .Directory
    mode := 511  -- 0o777
    hardlinks := 2
    uid := 0
    gid := 0
    md5 := "" }

/-- Attributes of a file materialized by the seeding walk (src/s3fs.rs
lines 324-338).  Note the source writes the hexadecimal literal 0x777 as
the mode. -/
def seeded_file_attrs (file_inode parent_uid parent_gid : Nat)
    (now : Int × Nat) : InodeAttributes :=
  { inode := file_inode
    open_file_handles := 1
    size := 0
    last_accessed := now
    last_modified := now
    last_metadata_changed := now
    kind := .File
    mode := 0x777
    hardlinks := 1
    uid := parent_uid
    gid := parent_gid
    md5 := "" }

/-- Attributes of a directory materialized by the seeding walk
(src/s3fs.rs lines 350-363). -/
def seeded_dir_attrs (dir_inode parent_uid parent_gid : Nat)
    (now : Int × Nat) : InodeAttributes :=
  { inode := dir_inode
    open_file_handles := 1
    size := 0
    last_accessed := now
    last_modified := now
    last_metadata_changed := now
    kind := .Directory
    mode := 0x777
    hardlinks := 1
    uid := parent_uid
    gid := parent_gid
    md5 := "" }

/-! ### The freshness check on open (src/s3fs.rs lines 502-525)

The remote metadata returned by get_stats carries a last-modified
timestamp and a content-md5 version identifier; the source consults only
the timestamp (the md5 comparison at line 508 is commented out). -/

structure RemoteStat where
  last_modified : Int × Nat
  version : String
deriving DecidableEq

/-- The attribute update performed after a successful repopulation of the
cache file (src/s3fs.rs lines 513-522): ctime := now, mtime := remote,
size grows to the downloaded length when larger, SUID/SGID clearing; the
md5 field is not touched. -/
def refresh_update (attr : InodeAttributes) (remote_lm : Int × Nat)
    (data_len : Nat) (now : Int × Nat) : InodeAttributes :=
  let a1 := { attr with last_metadata_changed := now, last_modified := remote_lm }
  let a2 := if data_len > attr.size then { a1 with size := data_len } else a1
  clear_suid_sgid a2

/-- The freshness decision of open (src/s3fs.rs line 509): repopulate
exactly when the remote last-modified differs from the stored
last_modified; `data_len` is the length of the downloaded object. -/
def open_freshness (attr : InodeAttributes) (remote : RemoteStat)
    (data_len : Nat) (now : Int × Nat) : InodeAttributes :=
  if remote.last_modified ≠ attr.last_modified then
    refresh_update attr remote.last_modified data_len now
  else attr

/-- The attribute update of write (src/s3fs.rs lines 610-617): both times
:= now, size grows to offset + len when larger, SUID/SGID clearing. -/
def write_update (attrs : InodeAttributes) (offset data_len : Nat)
    (now : Int × Nat) : InodeAttributes :=
  let a1 := { attrs with last_metadata_changed := now, last_modified := now }
  let a2 := if data_len + offset > attrs.size then
      { a1 with size := data_len + offset } else a1
  clear_suid_sgid a2

/-! ### read (src/s3fs.rs lines 551-584)

The store parameter is the `contents/` directory viewed as raw byte
files; read opens `contents/<inode>`, clamps, reads positionally and
replies, touching no persisted state (the returned store is the input
store; the source calls no write helper). -/

def read_fs (store : List (Nat × List Nat)) (inode fh offset size : Nat) :
    Except FsErr (List Nat) × List (Nat × List Nat) :=
  if !check_file_handle_read fh then (.error (.errno EACCES), store)
  else
    match alist_lookup inode store with
    | none => (.error (.errno ENOENT), store)
    | some bytes =>
        let rs := read_size size bytes.length offset
        (.ok ((bytes.drop offset).take rs), store)

/-! ### Concrete states used by the scenario evaluations -/

/-- The byte string "tmp". -/
def tmp_name : List Nat := [116, 109, 112]

/-- A freshly initialized data directory: root inode and its empty
directory descriptor, no superblock file. -/
def init_state : FsState :=
  { inodes := [(FUSE_ROOT_ID, root_attrs (0, 0))]
    contents := [(FUSE_ROOT_ID, .dir [([46], (FUSE_ROOT_ID, .Directory))])]
    superblock := none }

/-- create of a regular file `tmp` (mode 0o100644, O_WRONLY) by root,
followed by unlink of the same name, from a fresh data directory. -/
def create_then_unlink : Except FsErr FsState :=
  match create init_state 0 0 FUSE_ROOT_ID tmp_name 33188 O_WRONLY (1, 0) with
  | .ok (_, st1) => unlink st1 0 0 FUSE_ROOT_ID tmp_name (2, 0)
  | .error e => .error e

def inode_file_present (st : FsState) (n : Nat) : Bool :=
  (alist_lookup n st.inodes).isSome

def content_file_present (st : FsState) (n : Nat) : Bool :=
  (alist_lookup n st.contents).isSome

/-- A cached file inode: version_tag (md5) empty, i.e. never populated
according to the data model, with a stored last_modified of (5, 0). -/
def c2_attr : InodeAttributes :=
  { inode := 2
    open_file_handles := 1
    size := 10
    last_accessed := (5, 0)
    last_modified := (5, 0)
    last_metadata_changed := (5, 0)
    kind := .File
    mode := 511
    hardlinks := 1
    uid := 0
    gid := 0
    md5 := "" }

/-- Remote metadata whose version identifier differs from the stored
version_tag of `c2_attr` but whose last-modified timestamp coincides. -/
def c2_remote : RemoteStat := { last_modified := (5, 0), version := "v1" }

/-- Remote metadata with a changed last-modified timestamp. -/
def c2_remote2 : RemoteStat := { last_modified := (9, 0), version := "v1" }

/-- An inode record whose link count and open handle count are both zero,
so that gc_inode removes its files. -/
def c8_attrs : InodeAttributes :=
  { inode := 2
    open_file_handles := 0
    size := 0
    last_accessed := (0, 0)
    last_modified := (0, 0)
    last_metadata_changed := (0, 0)
    kind := .File
    mode := 511
    hardlinks := 0
    uid := 0
    gid := 0
    md5 := "" }

def c8_state : FsState :=
  { inodes := [(2, c8_attrs)], contents := [(2, .file [])], superblock := some 2 }

/-- The state after the first gc_inode call on `c8_state`: both files
removed. -/
def c8_state_after : FsState :=
  { inodes := [], contents := [], superblock := some 2 }

/-- A live record (hardlinks 1): the GC condition fails. -/
def c8_live_attrs : InodeAttributes := { c8_attrs with hardlinks := 1 }

/-! ## Theorems -/

/-! ### Helper lemmas on bit arithmetic -/

theorem check_access_eq_core (fu fg m u g k : Nat) :
    check_access fu fg m u g k = access_core (u == 0) (u == fu) (g == fg) m k := rfl

theorem land_mod_pow_two (n k m : Nat) (hk : k < 2 ^ n) :
    k &&& (m % 2 ^ n) = k &&& m := by
  rw [← Nat.and_pow_two_sub_one_eq_mod, Nat.land_comm m, ← Nat.land_assoc]
  have h : k &&& (2 ^ n - 1) = k := by
    rw [Nat.and_pow_two_sub_one_eq_mod, Nat.mod_eq_of_lt hk]
  rw [h]

theorem branch_eq (k t : Nat) (hk : k < 8) :
    ((k - (k &&& t)) == 0) = ((k &&& (t &&& 7)) == k) := by
  have h7 : (7 : Nat) = 2 ^ 3 - 1 := rfl
  have h1 : k &&& (t &&& 7) = k &&& t := by
    rw [h7, Nat.and_pow_two_sub_one_eq_mod]
    exact land_mod_pow_two 3 k t hk
  rw [h1, Bool.eq_iff_iff]
  simp only [beq_iff_eq]
  have hle : k &&& t ≤ k := Nat.and_le_left
  omega

theorem testBit_of_shift_mod_one (m i : Nat) (h : (m >>> i) % 2 = 1) :
    m.testBit i = true := by
  rw [Nat.testBit_to_div_mod, ← Nat.shiftRight_eq_div_pow, h]
  decide

theorem testBit_of_shift_mod_zero (m i : Nat) (h : (m >>> i) % 2 = 0) :
    m.testBit i = false := by
  rw [Nat.testBit_to_div_mod, ← Nat.shiftRight_eq_div_pow, h]
  decide

theorem and73_ne_zero (m i : Nat) (hi : Nat.testBit 73 i = true)
    (hm : m.testBit i = true) : m &&& 73 ≠ 0 := by
  intro h
  have h2 := congrArg (fun x => Nat.testBit x i) h
  simp [Nat.testBit_land, hm, hi, Nat.zero_testBit] at h2

theorem and73_eq_zero (m : Nat) (h0 : m.testBit 0 = false)
    (h3 : m.testBit 3 = false) (h6 : m.testBit 6 = false) : m &&& 73 = 0 := by
  apply Nat.eq_of_testBit_eq
  intro i
  rw [Nat.testBit_land, Nat.zero_testBit]
  by_cases hlt : i < 7
  · interval_cases i <;>
      simp [h0, h3, h6, show Nat.testBit 73 1 = false from by decide,
        show Nat.testBit 73 2 = false from by decide,
        show Nat.testBit 73 4 = false from by decide,
        show Nat.testBit 73 5 = false from by decide]
  · have hdiv : 73 / 2 ^ i = 0 := by
      apply Nat.div_eq_of_lt
      calc (73 : Nat) < 2 ^ 7 := by norm_num
        _ ≤ 2 ^ i := Nat.pow_le_pow_right (by norm_num) (by omega)
    have h73 : Nat.testBit 73 i = false := by
      rw [Nat.testBit_to_div_mod, hdiv]
      decide
    simp [h73]

theorem root_chain_eq (m k : Nat) :
    root_chain m k = (if (k &&& 1) != 0 then m &&& 73 != 0 else true) := by
  show ((((k &&& 1) - ((k &&& 1) &&& (m >>> 6))) -
        (((k &&& 1) - ((k &&& 1) &&& (m >>> 6))) &&& (m >>> 3)) -
        ((((k &&& 1) - ((k &&& 1) &&& (m >>> 6))) -
          (((k &&& 1) - ((k &&& 1) &&& (m >>> 6))) &&& (m >>> 3))) &&& m)) == 0)
      = (if (k &&& 1) != 0 then m &&& 73 != 0 else true)
  have hk1 : k &&& 1 = k % 2 := Nat.and_one_is_mod k
  rcases Nat.mod_two_eq_zero_or_one k with h | h
  · rw [hk1, h]
    simp [Nat.zero_and]
  · rw [hk1, h]
    have h16 : (1 : Nat) &&& (m >>> 6) = (m >>> 6) % 2 := by
      rw [Nat.land_comm, Nat.and_one_is_mod]
    rw [h16]
    rcases Nat.mod_two_eq_zero_or_one (m >>> 6) with h6 | h6
    · rw [h6, Nat.sub_zero]
      have h13 : (1 : Nat) &&& (m >>> 3) = (m >>> 3) % 2 := by
        rw [Nat.land_comm, Nat.and_one_is_mod]
      rw [h13]
      rcases Nat.mod_two_eq_zero_or_one (m >>> 3) with h3 | h3
      · rw [h3, Nat.sub_zero]
        have h10 : (1 : Nat) &&& m = m % 2 := by
          rw [Nat.land_comm, Nat.and_one_is_mod]
        rw [h10]
        rcases Nat.mod_two_eq_zero_or_one m with h0 | h0
        · rw [h0, Nat.sub_zero]
          have hz : m &&& 73 = 0 :=
            and73_eq_zero m (testBit_of_shift_mod_zero m 0 (by simpa using h0))
              (testBit_of_shift_mod_zero m 3 h3) (testBit_of_shift_mod_zero m 6 h6)
          simp [hz]
        · rw [h0]
          have hnz : m &&& 73 ≠ 0 :=
            and73_ne_zero m 0 (by decide) (testBit_of_shift_mod_one m 0 (by simpa using h0))
          simp [hnz]
      · rw [h3]
        have hnz : m &&& 73 ≠ 0 :=
          and73_ne_zero m 3 (by decide) (testBit_of_shift_mod_one m 3 h3)
        simp [hnz]
    · rw [h6]
      have hnz : m &&& 73 ≠ 0 :=
        and73_ne_zero m 6 (by decide) (testBit_of_shift_mod_one m 6 h6)
      simp [hnz]

theorem access_core_eq_posix (b1 b2 b3 : Bool) (m k : Nat) (hk : k < 8) :
    access_core b1 b2 b3 m k = posix_core b1 b2 b3 m k := by
  unfold access_core posix_core
  by_cases hk0 : k == F_OK
  · simp [hk0]
  · simp only [hk0, Bool.false_eq_true, if_false]
    cases b1 with
    | true =>
      simp only [if_true]
      rw [root_chain_eq]
      rfl
    | false =>
      cases b2 with
      | true => simpa using branch_eq k (m >>> 6) hk
      | false =>
        cases b3 with
        | true => simpa using branch_eq k (m >>> 3) hk
        | false => simpa using branch_eq k m hk

/-! ### Helper lemmas on clear_suid_sgid -/

theorem land_eight_testBit (m : Nat) : (m &&& 8 != 0) = m.testBit 3 := by
  have h2 : m &&& 8 = (m.testBit 3).toNat * 8 := by
    rw [show (8 : Nat) = 2 ^ 3 from rfl, Nat.and_two_pow]
  rw [h2]
  cases m.testBit 3 <;> simp

theorem clear_mode_cond (m : Nat) :
    ((m &&& 0xF7FF) &&& S_IXGRP != 0) = m.testBit 3 := by
  have h1 : (m &&& 0xF7FF) &&& S_IXGRP = m &&& 8 := by
    rw [show S_IXGRP = 8 from rfl, Nat.land_assoc,
      show (0xF7FF &&& 8 : Nat) = 8 from by decide]
  rw [h1, land_eight_testBit]

theorem clear_mode_testBit11 (m : Nat) :
    (clear_suid_sgid_mode m).testBit 11 = false := by
  simp only [clear_suid_sgid_mode]
  split <;>
    simp [Nat.testBit_land, show Nat.testBit 0xF7FF 11 = false from by decide]

theorem clear_mode_testBit10 (m : Nat) :
    (clear_suid_sgid_mode m).testBit 10 = (m.testBit 10 && !m.testBit 3) := by
  simp only [clear_suid_sgid_mode, clear_mode_cond]
  cases h : m.testBit 3 with
  | true =>
      simp [h, Nat.testBit_land,
        show Nat.testBit 0xFBFF 10 = false from by decide]
  | false =>
      simp [h, Nat.testBit_land,
        show Nat.testBit 0xF7FF 10 = true from by decide]

theorem write_update_mode (attrs : InodeAttributes) (offset data_len : Nat)
    (now : Int × Nat) :
    (write_update attrs offset data_len now).mode
      = clear_suid_sgid_mode attrs.mode := by
  unfold write_update clear_suid_sgid
  split <;> rfl

theorem refresh_update_mode (attr : InodeAttributes) (remote_lm : Int × Nat)
    (data_len : Nat) (now : Int × Nat) :
    (refresh_update attr remote_lm data_len now).mode
      = clear_suid_sgid_mode attr.mode := by
  unfold refresh_update clear_suid_sgid
  split <;> rfl

/-! ### Helper lemmas on association lists -/

theorem alist_lookup_remove_self {ν : Type} (k : Nat) (l : List (Nat × ν)) :
    alist_lookup k (alist_remove k l) = none := by
  induction l with
  | nil => rfl
  | cons p rest ih =>
      obtain ⟨k0, v0⟩ := p
      by_cases h : k0 = k
      · simpa [alist_remove, h] using ih
      · simpa [alist_remove, alist_lookup, h] using ih

/-! ### Claim theorems -/

/-- C1: evaluating the sequence create regular file, then unlink, from a
fresh data directory, with all permission checks passing, the created
inode is number 2 and both inodes/2 and contents/2 are still present
afterwards: create initializes open_file_handles to 1 and no operation
ever decrements it, so the GC condition of gc_inode is false at unlink
time and the files are never removed, contradicting the claim that both
files are absent. -/
theorem c1_create_unlink_files_remain :
    create_then_unlink.map
      (fun st => (inode_file_present st 2, content_file_present st 2))
      = .ok (true, true) := by decide

/-- C2 counterexample: the stored version_tag (the md5 string field,
empty, i.e. never populated) differs from the remote version identifier,
yet open leaves the inode completely untouched, because the code compares
the last_modified timestamps instead, and it never writes the md5 field.
So the claim (repopulate exactly on version_tag mismatch and set
version_tag to the remote value) is false at this input. -/
theorem c2_version_tag_counterexample :
    c2_attr.md5 ≠ c2_remote.version ∧
    open_freshness c2_attr c2_remote 3 (6, 0) = c2_attr ∧
    (open_freshness c2_attr c2_remote 3 (6, 0)).md5 ≠ c2_remote.version := by
  decide

/-- C2 amended: the freshness check on open compares the remote
last-modified timestamp with the stored last_modified field; on a match
the inode is untouched, on a mismatch the cache is repopulated and the
persisted attributes have size grown to the downloaded length only when
larger (max), last_modified set to the remote value, ctime set to now,
SUID cleared, SGID cleared exactly when group-execute is set, and the md5
(version_tag) string left unchanged. -/
theorem c2_freshness_by_last_modified (attr : InodeAttributes)
    (remote : RemoteStat) (data_len : Nat) (now : Int × Nat) :
    (remote.last_modified = attr.last_modified →
        open_freshness attr remote data_len now = attr)
    ∧ (remote.last_modified ≠ attr.last_modified →
        (open_freshness attr remote data_len now).size = max attr.size data_len
        ∧ (open_freshness attr remote data_len now).last_modified
            = remote.last_modified
        ∧ (open_freshness attr remote data_len now).last_metadata_changed = now
        ∧ (open_freshness attr remote data_len now).md5 = attr.md5
        ∧ (open_freshness attr remote data_len now).mode.testBit 11 = false
        ∧ (open_freshness attr remote data_len now).mode.testBit 10
            = (attr.mode.testBit 10 && !attr.mode.testBit 3)) := by
  constructor
  · intro h
    simp [open_freshness, h]
  · intro h
    have hsel : open_freshness attr remote data_len now
        = refresh_update attr remote.last_modified data_len now := by
      simp [open_freshness, h]
    rw [hsel]
    refine ⟨?_, ?_, ?_, ?_, ?_, ?_⟩
    · unfold refresh_update clear_suid_sgid
      split <;> simp <;> omega
    · unfold refresh_update clear_suid_sgid
      split <;> rfl
    · unfold refresh_update clear_suid_sgid
      split <;> rfl
    · unfold refresh_update clear_suid_sgid
      split <;> rfl
    · rw [refresh_update_mode, clear_mode_testBit11]
    · rw [refresh_update_mode, clear_mode_testBit10]

/-- C2 witness: both branches of the amended theorem at concrete inputs:
equal timestamps leave the inode untouched; differing timestamps leave
the md5 field unchanged. -/
theorem c2_freshness_by_last_modified_witness :
    open_freshness c2_attr c2_remote 3 (6, 0) = c2_attr
    ∧ (open_freshness c2_attr c2_remote2 3 (6, 0)).md5 = c2_attr.md5 :=
  ⟨(c2_freshness_by_last_modified c2_attr c2_remote 3 (6, 0)).1 (by decide),
   (((c2_freshness_by_last_modified c2_attr c2_remote2 3 (6, 0)).2
      (by decide)).2.2.2).1⟩

/-- C3: a download of a 1 byte object whose single block task fails (the
task returns an error, the join succeeds) is reported as a success of
67108864 bytes: the loop matches the join result with `Ok(_)`, which also
matches a joined task that returned an error, so per-task errors are
swallowed, contradicting the claim that any task error fails the whole
download. -/
theorem c3_task_error_swallowed :
    get_data 1 (fun _ => .joined (.error "range_read failed"))
      = .ok 67108864 := by decide

/-- C4: a fully successful download of a 1 byte object returns 67108864,
not 1: the loop adds the full block size for every joined task, so the
return value is num_blocks * block_size rather than the object size,
contradicting the claim that the total equals object_size. -/
theorem c4_returns_rounded_total :
    get_data 1 (fun _ => .joined (.ok ())) = .ok 67108864
    ∧ (67108864 : Nat) ≠ 1 := by
  exact ⟨by decide, by decide⟩

/-- C5 counterexample: at file_size 2^32, offset 0, size 1 the code
computes a read length of 0 (the u32 cast truncates the 64-bit difference)
while the claim formula min(size, file_size - offset) gives 1. -/
theorem c5_truncation_counterexample :
    read_size 1 4294967296 0 = 0 ∧ min 1 (4294967296 - 0) = 1 := by
  constructor
  · decide
  · decide

/-- C5 amended: on a read-capable handle with the content file present,
the number of bytes returned is min(size, (file_size - offset) truncated
to u32), where the subtraction saturates at 0; whenever file_size - offset
is below 2^32 (in particular for every file smaller than 4 GiB and for
every read at or past EOF) this equals min(size, file_size - offset) as
the claim states. -/
theorem c5_read_length (store : List (Nat × List Nat)) (bytes : List Nat)
    (inode fh offset size : Nat)
    (hfh : check_file_handle_read fh = true)
    (hc : alist_lookup inode store = some bytes) :
    (read_fs store inode fh offset size).1.map List.length
        = .ok (min size ((bytes.length - offset) % 4294967296))
    ∧ (bytes.length - offset < 4294967296 →
        (read_fs store inode fh offset size).1.map List.length
          = .ok (min size (bytes.length - offset))) := by
  have hmain : (read_fs store inode fh offset size).1.map List.length
      = .ok (min size ((bytes.length - offset) % 4294967296)) := by
    simp only [read_fs, hfh, Bool.not_true, Bool.false_eq_true, if_false, hc,
      read_size, Except.map]
    congr 1
    rw [List.length_take, List.length_drop]
    have hmle : (bytes.length - offset) % 4294967296 ≤ bytes.length - offset :=
      Nat.mod_le _ _
    omega
  refine ⟨hmain, fun hlt => ?_⟩
  rw [hmain]
  congr 1
  omega

/-- C5 witness: the amended theorem at a concrete store: a 3 byte file
read at offset 1 with size 5 returns 2 bytes. -/
theorem c5_read_length_witness :
    (read_fs [(2, [7, 8, 9])] 2 (2 ^ 63) 1 5).1.map List.length
        = .ok (min 5 (([7, 8, 9] : List Nat).length - 1)) :=
  (c5_read_length [(2, [7, 8, 9])] [7, 8, 9] 2 (2 ^ 63) 1 5 (by decide)
    (by decide)).2 (by decide)

/-- C6: check_access implements exactly the POSIX rule stated by the
specification, for every file owner, group, mode and caller identity, and
every access mask made of the R, W, X bits or F_OK (mask < 8): F_OK
always allows; root is allowed read and write unconditionally and execute
exactly when some x bit is set; otherwise the owner, group or others
triplet is selected in that order and every requested bit must be present
in it. -/
theorem c6_check_access_matches_posix (fu fg m u g k : Nat) (hk : k < 8) :
    check_access fu fg m u g k = posix_allow fu fg m u g k := by
  rw [check_access_eq_core]
  exact access_core_eq_posix (u == 0) (u == fu) (g == fg) m k hk

/-- C6 witness: the theorem at a concrete input (owner match, mode 0o750,
mask R_OK). -/
theorem c6_check_access_matches_posix_witness :
    check_access 1000 1000 488 1000 2000 4 = posix_allow 1000 1000 488 1000 2000 4 :=
  c6_check_access_matches_posix 1000 1000 488 1000 2000 4 (by decide)

/-- C7 counterexample: a directory inode materialized by the seeding walk
has hardlinks 1, not 2 as the claim states. -/
theorem c7_seeded_dir_hardlinks_counterexample :
    (seeded_dir_attrs 2 0 0 (0, 0)).hardlinks ≠ 2 := by decide

/-- C7 amended: only the root inode written by init has hardlinks 2;
every inode materialized by the seeding walk (file or directory) and
every inode materialized by create (file or directory) has hardlinks 1. -/
theorem c7_hardlinks_values (i pu pg : Nat) (now now2 : Int × Nat)
    (k : FileKind) (m16 u gd : Nat) :
    (root_attrs now).hardlinks = 2
    ∧ (seeded_dir_attrs i pu pg now).hardlinks = 1
    ∧ (seeded_file_attrs i pu pg now).hardlinks = 1
    ∧ (create_attrs i k m16 u gd now2).hardlinks = 1 :=
  ⟨rfl, rfl, rfl, rfl⟩

/-- C8 counterexample: on a record with both counters zero and both files
present, the first gc_inode call removes the files and returns true, but
the second call in succession fails (the remove_file unwrap panics on the
now absent file) instead of being safe with the same outcome, so gc_inode
is not idempotent as claimed. -/
theorem c8_not_idempotent_counterexample :
    gc_inode c8_attrs c8_state = .ok (c8_state_after, true)
    ∧ gc_inode c8_attrs c8_state_after = .error .fatal := by decide

/-- C8 amended: gc_inode is idempotent exactly on records that do not
satisfy the GC condition (it leaves the state unchanged and returns
false, so any repetition agrees); when hardlinks and open_file_handles
are both zero, a successful removing call is followed by a panic on the
second call, because the inode file is no longer present. -/
theorem c8_gc_idempotent_only_when_no_gc (attrs : InodeAttributes)
    (st : FsState) :
    (¬(attrs.hardlinks = 0 ∧ attrs.open_file_handles = 0) →
        gc_inode attrs st = .ok (st, false))
    ∧ (∀ st1 : FsState, attrs.hardlinks = 0 → attrs.open_file_handles = 0 →
        gc_inode attrs st = .ok (st1, true) →
        gc_inode attrs st1 = .error .fatal) := by
  constructor
  · intro h
    simp [gc_inode, h]
  · intro st1 h0 h1 hok
    have hcond : attrs.hardlinks = 0 ∧ attrs.open_file_handles = 0 := ⟨h0, h1⟩
    rw [gc_inode, if_pos hcond] at hok
    cases hlk : alist_lookup attrs.inode st.inodes with
    | none => rw [hlk] at hok; exact absurd hok (by simp)
    | some a =>
        rw [hlk] at hok
        dsimp only at hok
        cases hlc : alist_lookup attrs.inode st.contents with
        | none => rw [hlc] at hok; exact absurd hok (by simp)
        | some c =>
            rw [hlc] at hok
            simp only [Except.ok.injEq, Prod.mk.injEq, and_true] at hok
            have hst1 : st1 = { st with
                inodes := alist_remove attrs.inode st.inodes
                contents := alist_remove attrs.inode st.contents } := hok.symm
            rw [hst1, gc_inode, if_pos hcond]
            dsimp only
            rw [alist_lookup_remove_self]

/-- C8 witness: the amended theorem at concrete inputs: a live record is
left in place with outcome false, and the removed state of the
counterexample scenario panics on a second call. -/
theorem c8_gc_idempotent_only_when_no_gc_witness :
    gc_inode c8_live_attrs c8_state = .ok (c8_state, false)
    ∧ gc_inode c8_attrs c8_state_after = .error .fatal :=
  ⟨(c8_gc_idempotent_only_when_no_gc c8_live_attrs c8_state).1 (by decide),
   (c8_gc_idempotent_only_when_no_gc c8_attrs c8_state).2 c8_state_after
     (by decide) (by decide) (by decide)⟩

/-- C9: in the attribute update of write and in the refresh path of open,
the persisted mode always has the SUID bit (bit 11) cleared, and the SGID
bit (bit 10) is cleared exactly when the group-execute bit (bit 3) is set:
a mode with SGID set but group-execute clear keeps SGID. -/
theorem c9_suid_always_sgid_conditional (attrs : InodeAttributes)
    (offset data_len : Nat) (now : Int × Nat) (remote_lm : Int × Nat)
    (dlen2 : Nat) (now2 : Int × Nat) :
    ((write_update attrs offset data_len now).mode.testBit 11 = false)
    ∧ ((write_update attrs offset data_len now).mode.testBit 10
        = (attrs.mode.testBit 10 && !attrs.mode.testBit 3))
    ∧ ((refresh_update attrs remote_lm dlen2 now2).mode.testBit 11 = false)
    ∧ ((refresh_update attrs remote_lm dlen2 now2).mode.testBit 10
        = (attrs.mode.testBit 10 && !attrs.mode.testBit 3)) := by
  refine ⟨?_, ?_, ?_, ?_⟩
  · rw [write_update_mode, clear_mode_testBit11]
  · rw [write_update_mode, clear_mode_testBit10]
  · rw [refresh_update_mode, clear_mode_testBit11]
  · rw [refresh_update_mode, clear_mode_testBit10]

/-- C10: a read whose handle lacks the read bit is rejected with EACCES
before the content file is consulted; a read-capable handle whose content
file is absent replies ENOENT; and read never modifies the persisted
store. -/
theorem c10_read_error_paths (store : List (Nat × List Nat))
    (inode fh offset size : Nat) :
    (check_file_handle_read fh = false →
        read_fs store inode fh offset size = (.error (.errno EACCES), store))
    ∧ (check_file_handle_read fh = true → alist_lookup inode store = none →
        read_fs store inode fh offset size = (.error (.errno ENOENT), store))
    ∧ (read_fs store inode fh offset size).2 = store := by
  refine ⟨?_, ?_, ?_⟩
  · intro h
    simp [read_fs, h]
  · intro h hn
    simp [read_fs, h, hn]
  · unfold read_fs
    split
    · rfl
    · cases alist_lookup inode store <;> rfl

/-- C10 witness: the theorem at concrete inputs: handle 0 (no read bit)
gives EACCES, handle 2^63 on an empty store gives ENOENT, both leaving
the store unchanged. -/
theorem c10_read_error_paths_witness :
    read_fs [] 2 0 0 10 = (.error (.errno EACCES), [])
    ∧ read_fs [] 2 (2 ^ 63) 0 10 = (.error (.errno ENOENT), []) :=
  ⟨(c10_read_error_paths [] 2 0 0 10).1 (by decide),
   (c10_read_error_paths [] 2 (2 ^ 63) 0 10).2.1 (by decide) (by decide)⟩

end S3FS
